import Mathlib

/-!
Verification of `custom_components/rhvoice/tts.py` (RHVoice TTS provider for
Home Assistant).  The Python module is shallowly embedded: the static tables
become Lean lists, the voluptuous schemas become functions returning
`Except Invalid _`, the provider object becomes a structure, and the async
HTTP call becomes a pure function parameterised by a network oracle
`Request → NetResponse`.
-/

namespace RHVoice

/-- `SUPPORTED_FORMATS` from tts.py. -/
def SUPPORTED_FORMATS : List String := ["flac", "mp3", "opus", "wav"]

/-- `SUPPORTED_OPTIONS` from tts.py. -/
def SUPPORTED_OPTIONS : List String := ["format", "pitch", "rate", "voice", "volume"]

/-- `SUPPORTED_LANGUAGES` from tts.py: the static voice catalog, in the
source's (insertion-ordered dict) order. -/
def SUPPORTED_LANGUAGES : List (String × List String) :=
  [ ("en-US", ["alan", "bdl", "clb", "evgeniy-eng", "slt"]),
    ("eo", ["spomenka"]),
    ("ka-GE", ["natia"]),
    ("ky-KG", ["azamat", "nazgul"]),
    ("mk", ["kiko"]),
    ("pl-PL", ["natan", "michal", "cezary", "magda", "alicja"]),
    ("pt-BR", ["letícia-f123"]),
    ("ru-RU", ["aleksandr", "anna", "arina", "artemiy", "elena", "evgeniy-rus",
               "irina", "pavel", "yuriy", "victoria"]),
    ("tt-RU", ["talgat"]),
    ("uk-UA", ["anatol", "natalia", "volodymyr"]) ]

def DEFAULT_PORT : Nat := 8080
def DEFAULT_FORMAT : String := "mp3"
def DEFAULT_PITCH : Int := 50
def DEFAULT_RATE : Int := 50
def DEFAULT_VOICE : String := "anna"
def DEFAULT_VOLUME : Int := 50

/-- `list(chain(*SUPPORTED_LANGUAGES.values()))`: the flattened voice list. -/
def allVoices : List String := (SUPPORTED_LANGUAGES.map Prod.snd).flatten

/-- A voluptuous `Invalid` error: the offending option key and the offending
value rendered as a string. -/
structure Invalid where
  key : String
  value : String
deriving Repr, DecidableEq

/-- `FORMAT_SCHEMA = vol.All(cv.string, vol.In(SUPPORTED_FORMATS))`. -/
def FORMAT_SCHEMA (s : String) : Except Invalid String :=
  if s ∈ SUPPORTED_FORMATS then .ok s else .error ⟨"format", s⟩

/-- `vol.All(vol.Coerce(int), vol.Range(0, 100))` (integer inputs; the key
names the option the schema guards). -/
def rangeSchema (key : String) (n : Int) : Except Invalid Int :=
  if 0 ≤ n ∧ n ≤ 100 then .ok n else .error ⟨key, toString n⟩

def PITCH_SCHEMA : Int → Except Invalid Int := rangeSchema "pitch"
def RATE_SCHEMA : Int → Except Invalid Int := rangeSchema "rate"
def VOLUME_SCHEMA : Int → Except Invalid Int := rangeSchema "volume"

/-- `VOICE_SCHEMA = vol.All(cv.string, vol.In(list(chain(*SUPPORTED_LANGUAGES.values()))))`. -/
def VOICE_SCHEMA (s : String) : Except Invalid String :=
  if s ∈ allVoices then .ok s else .error ⟨"voice", s⟩

/-- The caller's partial option map (the five recognised per-call options;
integer options are modelled as the integers voluptuous coerces them to). -/
structure TTSOptions where
  format : Option String := none
  pitch : Option Int := none
  rate : Option Int := none
  voice : Option String := none
  volume : Option Int := none
deriving Repr, DecidableEq

/-- The fully resolved option set produced by the per-call schema. -/
structure ResolvedOptions where
  format : String
  pitch : Int
  rate : Int
  voice : String
  volume : Int
deriving Repr, DecidableEq

/-- Provider configuration as accepted by `PLATFORM_SCHEMA` (defaults from
the `vol.Optional(..., default=...)` declarations; `timeout` is read by the
provider but has no schema entry, hence `Option`). -/
structure Conf where
  host : String
  port : Nat := DEFAULT_PORT
  format : String := DEFAULT_FORMAT
  pitch : Int := DEFAULT_PITCH
  rate : Int := DEFAULT_RATE
  ssl : Bool := false
  verify_ssl : Bool := true
  voice : String := DEFAULT_VOICE
  volume : Int := DEFAULT_VOLUME
  timeout : Option Nat := none
deriving Repr, DecidableEq

/-- The `for language, voices in SUPPORTED_LANGUAGES.items(): if self._voice
in voices: self._language = language; break` loop: first catalog entry whose
voice list contains `voice`, `none` when the loop never breaks (in which case
the Python attribute `_language` is never assigned). -/
def lookupLanguage (voice : String) : Option String :=
  (SUPPORTED_LANGUAGES.find? (fun lv => voice ∈ lv.2)).map Prod.fst

/-- The `RHVoiceProvider` instance state after `__init__`.  `language` is
`none` exactly when the Python `_language` attribute was never assigned. -/
structure Provider where
  name : String
  url : String
  verify_ssl : Bool
  encoding : String
  pitch : Int
  rate : Int
  voice : String
  volume : Int
  timeout : Option Nat
  language : Option String
deriving Repr, DecidableEq

/-- `RHVoiceProvider.__init__`. -/
def providerInit (conf : Conf) : Provider :=
  { name := "RHVoice"
    url := "http" ++ (if conf.ssl then "s" else "") ++ "://" ++ conf.host ++ ":"
             ++ toString conf.port ++ "/say"
    verify_ssl := conf.verify_ssl
    encoding := conf.format
    pitch := conf.pitch
    rate := conf.rate
    voice := conf.voice
    volume := conf.volume
    timeout := conf.timeout
    language := lookupLanguage conf.voice }

/-- Reading a never-assigned attribute raises `AttributeError` in Python. -/
inductive AttributeError where
  | mk (attr : String)
deriving Repr, DecidableEq

/-- The `default_language` property: returns `self._language`, which raises
`AttributeError` when `__init__` never assigned it. -/
def default_language (p : Provider) : Except AttributeError String :=
  match p.language with
  | some l => .ok l
  | none => .error (.mk "_language")

/-- The `supported_languages` property: `list(SUPPORTED_LANGUAGES.keys())`. -/
def supported_languages : List String := SUPPORTED_LANGUAGES.map Prod.fst

/-- One `vol.Optional(key, default=d): schema` entry of the per-call options
schema: a missing key is filled with the default, and the chosen value (the
caller's or the default) is passed through the value schema, as voluptuous
does. -/
def resolveField {α} (schema : α → Except Invalid α) (dflt : α) :
    Option α → Except Invalid α
  | some v => schema v
  | none => schema dflt

/-- The per-call `vol.Schema({...})` built inside `async_get_tts_audio`,
with the provider's configured values as defaults. -/
def optionsSchema (p : Provider) (o : TTSOptions) : Except Invalid ResolvedOptions := do
  let format ← resolveField FORMAT_SCHEMA p.encoding o.format
  let pitch ← resolveField PITCH_SCHEMA p.pitch o.pitch
  let rate ← resolveField RATE_SCHEMA p.rate o.rate
  let voice ← resolveField VOICE_SCHEMA p.voice o.voice
  let volume ← resolveField VOLUME_SCHEMA p.volume o.volume
  pure ⟨format, pitch, rate, voice, volume⟩

/-- A query-string value: aiohttp accepts both strings and ints here. -/
inductive ParamValue where
  | str (s : String)
  | int (n : Int)
deriving Repr, DecidableEq

/-- The outbound HTTP request handed to `websession.get`. -/
structure Request where
  method : String
  url : String
  params : List (String × ParamValue)
  verify_ssl : Bool
deriving Repr, DecidableEq

/-- The parameter bag after `options = options_schema(...)` followed by
`options.update({"text": message})`: the five validated options plus the
`text` key holding the message exactly as `update` stored it. -/
def buildRequest (p : Provider) (r : ResolvedOptions) (text : String) : Request :=
  { method := "GET"
    url := p.url
    params := [("format", .str r.format), ("pitch", .int r.pitch),
               ("rate", .int r.rate), ("voice", .str r.voice),
               ("volume", .int r.volume), ("text", .str text)]
    verify_ssl := p.verify_ssl }

/-- What the network does with a request: time out, fail at transport level
(`aiohttp.ClientError`), or answer with a status code and a body (bytes as
naturals). -/
inductive NetResponse where
  | timeout
  | clientError
  | http (status : Nat) (body : List Nat)
deriving Repr, DecidableEq

/-- The value of `async_get_tts_audio`: either `(encoding, data)` or the
`(None, None)` pair. -/
inductive TTSResult where
  | audio (encoding : String) (data : List Nat)
  | nothing
deriving Repr, DecidableEq

def HTTPStatus_OK : Nat := 200

set_option linter.unusedVariables false in
/-- `async_get_tts_audio(self, message, language, options=None)`.

The network is a pure oracle `net : Request → NetResponse`.  A validation
error propagates as `.error` before any request exists; otherwise the result
carries the single request that was issued together with the returned pair.

Source-order subtlety kept faithfully: `options.update({"text": message})`
runs BEFORE the `if not message: message = " "` replacement, so the stored
`text` parameter is the original message; the rebinding of the local
`message` afterwards is dead. -/
def async_get_tts_audio (p : Provider) (message : String) (language : String)
    (options : Option TTSOptions) (net : Request → NetResponse) :
    Except Invalid (Request × TTSResult) := do
  let opts ← optionsSchema p (options.getD {})
  let request := buildRequest p opts message
  let _message := if message = "" then " " else message
  match net request with
  | .timeout => pure (request, .nothing)
  | .clientError => pure (request, .nothing)
  | .http status body =>
      if status ≠ HTTPStatus_OK then
        pure (request, .nothing)
      else
        pure (request, .audio p.encoding body)

/-- Does an `Except` hold an error? -/
def isError {ε α : Type} : Except ε α → Bool
  | .error _ => true
  | .ok _ => false

/-- The caller supplied option `k` and its value fails `k`'s schema. -/
def badField (o : TTSOptions) (k : String) : Bool :=
  if k = "format" then o.format.any fun v => isError (FORMAT_SCHEMA v)
  else if k = "pitch" then o.pitch.any fun v => isError (PITCH_SCHEMA v)
  else if k = "rate" then o.rate.any fun v => isError (RATE_SCHEMA v)
  else if k = "voice" then o.voice.any fun v => isError (VOICE_SCHEMA v)
  else if k = "volume" then o.volume.any fun v => isError (VOLUME_SCHEMA v)
  else false

/-- Every supplied option passes its schema. -/
def validOpts (o : TTSOptions) : Bool :=
  SUPPORTED_OPTIONS.all fun k => !badField o k

/-- The provider's configured defaults all pass their schemas — an invariant
of every constructed provider, since `PLATFORM_SCHEMA` validates the
configuration with the same value schemas. -/
def validDefaults (p : Provider) : Bool :=
  !isError (FORMAT_SCHEMA p.encoding) && !isError (PITCH_SCHEMA p.pitch) &&
  !isError (RATE_SCHEMA p.rate) && !isError (VOICE_SCHEMA p.voice) &&
  !isError (VOLUME_SCHEMA p.volume)

lemma FORMAT_SCHEMA_ok {v : String} (h : isError (FORMAT_SCHEMA v) = false) :
    FORMAT_SCHEMA v = .ok v := by
  unfold FORMAT_SCHEMA at *; split at h <;> simp_all [isError]

lemma rangeSchema_ok {k : String} {n : Int} (h : isError (rangeSchema k n) = false) :
    rangeSchema k n = .ok n := by
  unfold rangeSchema at *; split at h <;> simp_all [isError]

lemma VOICE_SCHEMA_ok {v : String} (h : isError (VOICE_SCHEMA v) = false) :
    VOICE_SCHEMA v = .ok v := by
  unfold VOICE_SCHEMA at *; split at h <;> simp_all [isError]

lemma FORMAT_SCHEMA_error {v : String} {e : Invalid} (h : FORMAT_SCHEMA v = .error e) :
    e = ⟨"format", v⟩ ∧ isError (FORMAT_SCHEMA v) = true := by
  unfold FORMAT_SCHEMA at *; split at h <;> simp_all [isError]

lemma rangeSchema_error {k : String} {n : Int} {e : Invalid}
    (h : rangeSchema k n = .error e) :
    e = ⟨k, toString n⟩ ∧ isError (rangeSchema k n) = true := by
  unfold rangeSchema at h ⊢
  by_cases hc : 0 ≤ n ∧ n ≤ 100
  · rw [if_pos hc] at h; cases h
  · rw [if_neg hc] at h ⊢
    exact ⟨(Except.error.inj h).symm, rfl⟩

lemma VOICE_SCHEMA_error {v : String} {e : Invalid} (h : VOICE_SCHEMA v = .error e) :
    e = ⟨"voice", v⟩ ∧ isError (VOICE_SCHEMA v) = true := by
  unfold VOICE_SCHEMA at *; split at h <;> simp_all [isError]

lemma PITCH_SCHEMA_ok {n : Int} (h : isError (PITCH_SCHEMA n) = false) :
    PITCH_SCHEMA n = .ok n := rangeSchema_ok h

lemma RATE_SCHEMA_ok {n : Int} (h : isError (RATE_SCHEMA n) = false) :
    RATE_SCHEMA n = .ok n := rangeSchema_ok h

lemma VOLUME_SCHEMA_ok {n : Int} (h : isError (VOLUME_SCHEMA n) = false) :
    VOLUME_SCHEMA n = .ok n := rangeSchema_ok h

lemma PITCH_SCHEMA_error {n : Int} {e : Invalid} (h : PITCH_SCHEMA n = .error e) :
    e = ⟨"pitch", toString n⟩ ∧ isError (PITCH_SCHEMA n) = true := rangeSchema_error h

lemma RATE_SCHEMA_error {n : Int} {e : Invalid} (h : RATE_SCHEMA n = .error e) :
    e = ⟨"rate", toString n⟩ ∧ isError (RATE_SCHEMA n) = true := rangeSchema_error h

lemma VOLUME_SCHEMA_error {n : Int} {e : Invalid} (h : VOLUME_SCHEMA n = .error e) :
    e = ⟨"volume", toString n⟩ ∧ isError (VOLUME_SCHEMA n) = true := rangeSchema_error h

/-- A field whose supplied value (or, failing that, whose default) passes its
schema resolves to the supplied value, else to the default. -/
lemma resolveField_ok {α : Type} {schema : α → Except Invalid α} {d : α} {o : Option α}
    (hid : ∀ v, isError (schema v) = false → schema v = .ok v)
    (hd : isError (schema d) = false)
    (ho : (o.any fun v => isError (schema v)) = false) :
    resolveField schema d o = .ok (o.getD d) := by
  cases o with
  | none => simpa [resolveField] using hid d hd
  | some v => simp only [Option.any_some] at ho; simpa [resolveField] using hid v ho

lemma exceptBind_ok {ε α β : Type} (a : α) (f : α → Except ε β) :
    (Except.ok a >>= f : Except ε β) = f a := rfl

lemma exceptBind_error {ε α β : Type} (e : ε) (f : α → Except ε β) :
    ((Except.error e : Except ε α) >>= f) = .error e := rfl

lemma exceptPure {ε α : Type} (a : α) : (pure a : Except ε α) = .ok a := rfl

/-- A validation error in the per-call schema propagates out of
`async_get_tts_audio` without consulting the network oracle. -/
lemma async_of_schema_error {p : Provider} {o : TTSOptions} {e : Invalid}
    (h : optionsSchema p o = .error e) (msg lang : String)
    (net : Request → NetResponse) :
    async_get_tts_audio p msg lang (some o) net = .error e := by
  unfold async_get_tts_audio
  simp only [Option.getD_some, h, exceptBind_error]

/-- When the per-call schema succeeds, exactly one request — the one built
from the resolved options and the original message — is issued. -/
lemma async_ok_shape {p : Provider} {o : Option TTSOptions} {r : ResolvedOptions}
    (msg lang : String) (net : Request → NetResponse)
    (h : optionsSchema p (o.getD {}) = .ok r) :
    ∃ res, async_get_tts_audio p msg lang o net = .ok (buildRequest p r msg, res) := by
  unfold async_get_tts_audio
  rw [h]
  simp only [exceptBind_ok]
  cases net (buildRequest p r msg) with
  | timeout => exact ⟨.nothing, rfl⟩
  | clientError => exact ⟨.nothing, rfl⟩
  | http status body =>
      by_cases hs : status = HTTPStatus_OK
      · exact ⟨.audio p.encoding body, by simp [hs, exceptPure]⟩
      · exact ⟨.nothing, by simp [hs, exceptPure]⟩

/-- A field whose supplied value fails its schema makes `resolveField`
return that schema error. -/
lemma resolveField_error_of_bad {α : Type} {schema : α → Except Invalid α} {d : α}
    {o : Option α} (hbad : (o.any fun v => isError (schema v)) = true) :
    ∃ v e, o = some v ∧ schema v = .error e ∧ resolveField schema d o = .error e := by
  cases o with
  | none => simp [Option.any_none] at hbad
  | some v =>
      simp only [Option.any_some] at hbad
      cases hs : schema v with
      | ok w => rw [hs] at hbad; simp [isError] at hbad
      | error e => exact ⟨v, e, rfl, hs, by simp [resolveField, hs]⟩

/-- With valid provider defaults and valid supplied options, the per-call
schema resolves every supplied option to the caller's value and every
omitted option to the provider's default. -/
lemma optionsSchema_ok {p : Provider} {o : TTSOptions}
    (hd : validDefaults p = true) (ho : validOpts o = true) :
    optionsSchema p o = .ok ⟨o.format.getD p.encoding, o.pitch.getD p.pitch,
      o.rate.getD p.rate, o.voice.getD p.voice, o.volume.getD p.volume⟩ := by
  simp only [validDefaults, Bool.and_eq_true, Bool.not_eq_true'] at hd
  obtain ⟨⟨⟨⟨hdf, hdp⟩, hdr⟩, hdv⟩, hdvol⟩ := hd
  simp [validOpts, SUPPORTED_OPTIONS, badField, Bool.not_eq_true'] at ho
  obtain ⟨hof, hop, hor, hov, hovol⟩ := ho
  unfold optionsSchema
  rw [resolveField_ok (fun v h => FORMAT_SCHEMA_ok h) hdf hof]
  simp only [exceptBind_ok]
  rw [resolveField_ok (fun v h => PITCH_SCHEMA_ok h) hdp hop]
  simp only [exceptBind_ok]
  rw [resolveField_ok (fun v h => RATE_SCHEMA_ok h) hdr hor]
  simp only [exceptBind_ok]
  rw [resolveField_ok (fun v h => VOICE_SCHEMA_ok h) hdv hov]
  simp only [exceptBind_ok]
  rw [resolveField_ok (fun v h => VOLUME_SCHEMA_ok h) hdvol hovol]
  simp only [exceptBind_ok, exceptPure]

/-- With valid provider defaults, a bad supplied option makes the per-call
schema fail with an error naming a bad supplied option. -/
lemma optionsSchema_error_of_bad {p : Provider} {o : TTSOptions} {k : String}
    (hd : validDefaults p = true) (hk : badField o k = true) :
    ∃ e, optionsSchema p o = .error e ∧ badField o e.key = true := by
  simp only [validDefaults, Bool.and_eq_true, Bool.not_eq_true'] at hd
  obtain ⟨⟨⟨⟨hdf, hdp⟩, hdr⟩, hdv⟩, hdvol⟩ := hd
  by_cases hf : (o.format.any fun v => isError (FORMAT_SCHEMA v)) = true
  · obtain ⟨v, e, hov, hse, hre⟩ :=
      @resolveField_error_of_bad String FORMAT_SCHEMA p.encoding o.format hf
    obtain ⟨hek, -⟩ := FORMAT_SCHEMA_error hse
    refine ⟨e, ?_, ?_⟩
    · unfold optionsSchema; rw [hre]; simp only [exceptBind_error]
    · rw [hek]; simpa [badField] using hf
  · rw [Bool.not_eq_true] at hf
    by_cases hp : (o.pitch.any fun v => isError (PITCH_SCHEMA v)) = true
    · obtain ⟨v, e, hov, hse, hre⟩ :=
        @resolveField_error_of_bad Int PITCH_SCHEMA p.pitch o.pitch hp
      obtain ⟨hek, -⟩ := PITCH_SCHEMA_error hse
      refine ⟨e, ?_, ?_⟩
      · unfold optionsSchema
        rw [resolveField_ok (fun v h => FORMAT_SCHEMA_ok h) hdf hf]
        simp only [exceptBind_ok]
        rw [hre]; simp only [exceptBind_error]
      · rw [hek]; simpa [badField] using hp
    · rw [Bool.not_eq_true] at hp
      by_cases hr : (o.rate.any fun v => isError (RATE_SCHEMA v)) = true
      · obtain ⟨v, e, hov, hse, hre⟩ :=
          @resolveField_error_of_bad Int RATE_SCHEMA p.rate o.rate hr
        obtain ⟨hek, -⟩ := RATE_SCHEMA_error hse
        refine ⟨e, ?_, ?_⟩
        · unfold optionsSchema
          rw [resolveField_ok (fun v h => FORMAT_SCHEMA_ok h) hdf hf]
          simp only [exceptBind_ok]
          rw [resolveField_ok (fun v h => PITCH_SCHEMA_ok h) hdp hp]
          simp only [exceptBind_ok]
          rw [hre]; simp only [exceptBind_error]
        · rw [hek]; simpa [badField] using hr
      · rw [Bool.not_eq_true] at hr
        by_cases hv : (o.voice.any fun v => isError (VOICE_SCHEMA v)) = true
        · obtain ⟨v, e, hov, hse, hre⟩ :=
            @resolveField_error_of_bad String VOICE_SCHEMA p.voice o.voice hv
          obtain ⟨hek, -⟩ := VOICE_SCHEMA_error hse
          refine ⟨e, ?_, ?_⟩
          · unfold optionsSchema
            rw [resolveField_ok (fun v h => FORMAT_SCHEMA_ok h) hdf hf]
            simp only [exceptBind_ok]
            rw [resolveField_ok (fun v h => PITCH_SCHEMA_ok h) hdp hp]
            simp only [exceptBind_ok]
            rw [resolveField_ok (fun v h => RATE_SCHEMA_ok h) hdr hr]
            simp only [exceptBind_ok]
            rw [hre]; simp only [exceptBind_error]
          · rw [hek]; simpa [badField] using hv
        · rw [Bool.not_eq_true] at hv
          by_cases hvol : (o.volume.any fun v => isError (VOLUME_SCHEMA v)) = true
          · obtain ⟨v, e, hov, hse, hre⟩ :=
              @resolveField_error_of_bad Int VOLUME_SCHEMA p.volume o.volume hvol
            obtain ⟨hek, -⟩ := VOLUME_SCHEMA_error hse
            refine ⟨e, ?_, ?_⟩
            · unfold optionsSchema
              rw [resolveField_ok (fun v h => FORMAT_SCHEMA_ok h) hdf hf]
              simp only [exceptBind_ok]
              rw [resolveField_ok (fun v h => PITCH_SCHEMA_ok h) hdp hp]
              simp only [exceptBind_ok]
              rw [resolveField_ok (fun v h => RATE_SCHEMA_ok h) hdr hr]
              simp only [exceptBind_ok]
              rw [resolveField_ok (fun v h => VOICE_SCHEMA_ok h) hdv hv]
              simp only [exceptBind_ok]
              rw [hre]; simp only [exceptBind_error]
            · rw [hek]; simpa [badField] using hvol
          · rw [Bool.not_eq_true] at hvol
            exfalso
            simp only [badField] at hk
            split_ifs at hk <;> simp_all

/-- Every catalog voice reverse-looks-up to the (unique) language listing it. -/
lemma lookupLanguage_complete :
    ∀ lv ∈ SUPPORTED_LANGUAGES, ∀ v ∈ lv.2, lookupLanguage v = some lv.1 := by decide

/-- A voice in no catalog entry reverse-looks-up to nothing. -/
lemma lookupLanguage_eq_none {voice : String}
    (h : ∀ lv ∈ SUPPORTED_LANGUAGES, voice ∉ lv.2) : lookupLanguage voice = none := by
  have hn : SUPPORTED_LANGUAGES.find? (fun lv => voice ∈ lv.2) = none := by
    rw [List.find?_eq_none]
    intro x hx
    simp [h x hx]
  simp [lookupLanguage, hn]

/-- Classifies the network outcomes the source collapses to `(None, None)`:
timeout, `ClientError`, and any non-`HTTPStatus.OK` status. -/
def failedResponse : NetResponse → Bool
  | .timeout => true
  | .clientError => true
  | .http status _ => status != HTTPStatus_OK

/-- C3: an out-of-domain supplied option (pitch/rate/volume outside [0,100],
format outside the four supported formats, voice outside the flattened
catalog) makes option resolution fail with a validation error naming an
offending option, and the synthesis call fails with that same error for
every network oracle — i.e. before any request is issued. -/
theorem claim_C3_invalid_option_fails_before_network (p : Provider) (o : TTSOptions)
    (k : String) (hdef : validDefaults p = true) (hbad : badField o k = true) :
    ∃ e, optionsSchema p o = .error e ∧ badField o e.key = true ∧
      ∀ message language net,
        async_get_tts_audio p message language (some o) net = .error e := by
  obtain ⟨e, he, hkey⟩ := optionsSchema_error_of_bad hdef hbad
  exact ⟨e, he, hkey, fun message language net => async_of_schema_error he message language net⟩

/-- Witness for C3 at pitch = 101. -/
theorem claim_C3_witness :
    ∃ e, optionsSchema (providerInit { host := "h" }) { pitch := some 101 } = .error e ∧
      badField { pitch := some 101 } e.key = true ∧
      ∀ message language net,
        async_get_tts_audio (providerInit { host := "h" }) message language
          (some { pitch := some 101 }) net = .error e :=
  claim_C3_invalid_option_fails_before_network _ _ "pitch" (by decide) (by decide)

/-- C4: when every supplied option is inside its domain (and the provider's
configured defaults are valid, as `PLATFORM_SCHEMA` guarantees), resolution
succeeds with exactly the caller's value for each supplied option and the
provider's default for each omitted one. -/
theorem claim_C4_valid_options_resolve (p : Provider) (o : TTSOptions)
    (hdef : validDefaults p = true) (hopts : validOpts o = true) :
    optionsSchema p o = .ok ⟨o.format.getD p.encoding, o.pitch.getD p.pitch,
      o.rate.getD p.rate, o.voice.getD p.voice, o.volume.getD p.volume⟩ :=
  optionsSchema_ok hdef hopts

/-- Witness for C4: format and pitch supplied, the rest defaulted. -/
theorem claim_C4_witness :
    optionsSchema (providerInit { host := "h" }) { format := some "wav", pitch := some 60 } =
      .ok ⟨"wav", 60, 50, "anna", 50⟩ :=
  claim_C4_valid_options_resolve _ _ (by decide) (by decide)

/-- C5: once the request has been dispatched, a timeout, a transport-level
`ClientError`, and a non-success HTTP status all produce the very same
`(None, None)` value, so the caller cannot tell the three failure kinds
apart from the returned value. -/
theorem claim_C5_uniform_failure_result (p : Provider) (message language : String)
    (options : Option TTSOptions) (net : Request → NetResponse) (r : ResolvedOptions)
    (hres : optionsSchema p (options.getD {}) = .ok r)
    (hfail : failedResponse (net (buildRequest p r message)) = true) :
    async_get_tts_audio p message language options net =
      .ok (buildRequest p r message, .nothing) := by
  unfold async_get_tts_audio
  rw [hres]
  simp only [exceptBind_ok]
  cases hn : net (buildRequest p r message) with
  | timeout => rfl
  | clientError => rfl
  | http status body =>
      rw [hn] at hfail
      simp only [failedResponse, bne_iff_ne] at hfail
      simp [hfail, exceptPure]

/-- Witness for C5 at a timeout. -/
theorem claim_C5_witness :
    async_get_tts_audio (providerInit { host := "h" }) "hi" "en-US" none (fun _ => .timeout) =
      .ok (buildRequest (providerInit { host := "h" }) ⟨"mp3", 50, 50, "anna", 50⟩ "hi",
           .nothing) :=
  claim_C5_uniform_failure_result _ "hi" "en-US" none _ _ (by rfl) (by rfl)

/-- C1 (code bug): with empty message text and all-default options, the call
succeeds, but the transmitted `text` query parameter is the empty string and
NOT the single space the code's own empty-message replacement intends:
`options.update({"text": message})` runs before `message = " "`, so the
rebinding is dead and the space never reaches the parameter bag. -/
theorem claim_C1_empty_message_transmits_empty_text :
    async_get_tts_audio (providerInit { host := "h" }) "" "ru-RU" none
        (fun _ => .http 200 [1, 2, 3]) =
      .ok (buildRequest (providerInit { host := "h" }) ⟨"mp3", 50, 50, "anna", 50⟩ "",
           .audio "mp3" [1, 2, 3]) ∧
    ((buildRequest (providerInit { host := "h" }) ⟨"mp3", 50, 50, "anna", 50⟩ "").params.contains
        ("text", .str "") = true) ∧
    ((buildRequest (providerInit { host := "h" }) ⟨"mp3", 50, 50, "anna", 50⟩ "").params.contains
        ("text", .str " ") = false) :=
  ⟨rfl, rfl, rfl⟩

/-- C2 (amended): a success-status response returns the body bytes exactly as
received, labelled with the PROVIDER'S CONFIGURED encoding (`self._encoding`),
not the per-call resolved format. -/
theorem claim_C2_success_returns_configured_encoding (p : Provider)
    (message language : String) (options : Option TTSOptions)
    (net : Request → NetResponse) (r : ResolvedOptions) (body : List Nat)
    (hres : optionsSchema p (options.getD {}) = .ok r)
    (hnet : net (buildRequest p r message) = .http HTTPStatus_OK body) :
    async_get_tts_audio p message language options net =
      .ok (buildRequest p r message, .audio p.encoding body) := by
  unfold async_get_tts_audio
  rw [hres]
  simp only [exceptBind_ok]
  rw [hnet]
  simp [exceptPure]

/-- Witness for the amended C2: a 200 response with defaulted options. -/
theorem claim_C2_witness :
    async_get_tts_audio (providerInit { host := "h" }) "hi" "en-US" none
        (fun _ => .http 200 [82, 73, 70, 70]) =
      .ok (buildRequest (providerInit { host := "h" }) ⟨"mp3", 50, 50, "anna", 50⟩ "hi",
           .audio "mp3" [82, 73, 70, 70]) :=
  claim_C2_success_returns_configured_encoding _ "hi" "en-US" none _ _ [82, 73, 70, 70]
    (by rfl) (by rfl)

/-- C2 counterexample: provider configured with format "mp3", per-call
requested format "wav", 200 response with body b"RIFF...audio...": the call
returns the label "mp3", not the requested "wav" the claim demands. -/
theorem claim_C2_counterexample :
    async_get_tts_audio (providerInit { host := "h" }) "hello" "en-US"
        (some { format := some "wav" })
        (fun _ => .http 200 [82, 73, 70, 70, 46, 46, 46, 97, 117, 100, 105, 111, 46, 46, 46]) =
      .ok (buildRequest (providerInit { host := "h" }) ⟨"wav", 50, 50, "anna", 50⟩ "hello",
           .audio "mp3" [82, 73, 70, 70, 46, 46, 46, 97, 117, 100, 105, 111, 46, 46, 46]) ∧
    TTSResult.audio "mp3" [82, 73, 70, 70, 46, 46, 46, 97, 117, 100, 105, 111, 46, 46, 46] ≠
      TTSResult.audio "wav" [82, 73, 70, 70, 46, 46, 46, 97, 117, 100, 105, 111, 46, 46, 46] :=
  ⟨rfl, by decide⟩

/-- C6: a provider whose default voice occurs in a catalog entry derives that
entry's language tag as its default language; a voice in no entry leaves the
language unresolved (`none`) with construction still completing; and
`supported_languages` is the catalog's full key list in every case. -/
theorem claim_C6_default_language_derivation (conf : Conf) :
    (∀ lv ∈ SUPPORTED_LANGUAGES, conf.voice ∈ lv.2 →
        default_language (providerInit conf) = .ok lv.1) ∧
    ((∀ lv ∈ SUPPORTED_LANGUAGES, conf.voice ∉ lv.2) →
        (providerInit conf).language = none) ∧
    supported_languages = SUPPORTED_LANGUAGES.map Prod.fst := by
  refine ⟨?_, ?_, rfl⟩
  · intro lv hlv hv
    have hl := lookupLanguage_complete lv hlv conf.voice hv
    simp [default_language, providerInit, hl]
  · intro h
    simp [providerInit, lookupLanguage_eq_none h]

/-- Witness for C6: default voice "anna" yields default language "ru-RU". -/
theorem claim_C6_witness :
    default_language (providerInit { host := "h", voice := "anna" }) = .ok "ru-RU" ∧
    supported_languages = ["en-US", "eo", "ka-GE", "ky-KG", "mk", "pl-PL", "pt-BR",
      "ru-RU", "tt-RU", "uk-UA"] :=
  ⟨(claim_C6_default_language_derivation { host := "h", voice := "anna" }).1
      ("ru-RU", ["aleksandr", "anna", "arina", "artemiy", "elena", "evgeniy-rus",
                 "irina", "pavel", "yuriy", "victoria"])
      (by decide) (by decide),
   by decide⟩

/-- C7: whenever option resolution succeeds, the one request issued is a GET
to `http://{host}:{port}/say` (or `https://...` with TLS on) carrying exactly
the `text`, `format`, `pitch`, `rate`, `voice` and `volume` query parameters
taken from the resolved option set and the message. -/
theorem claim_C7_request_shape (conf : Conf) (message language : String)
    (options : Option TTSOptions) (net : Request → NetResponse) (r : ResolvedOptions)
    (hres : optionsSchema (providerInit conf) (options.getD {}) = .ok r) :
    ∃ res, async_get_tts_audio (providerInit conf) message language options net =
        .ok (buildRequest (providerInit conf) r message, res) ∧
      (buildRequest (providerInit conf) r message).method = "GET" ∧
      (buildRequest (providerInit conf) r message).url =
        (if conf.ssl then "https://" else "http://") ++ conf.host ++ ":"
          ++ toString conf.port ++ "/say" ∧
      (buildRequest (providerInit conf) r message).params =
        [("format", .str r.format), ("pitch", .int r.pitch), ("rate", .int r.rate),
         ("voice", .str r.voice), ("volume", .int r.volume), ("text", .str message)] ∧
      ((buildRequest (providerInit conf) r message).params.map Prod.fst).Perm
        ("text" :: SUPPORTED_OPTIONS) := by
  obtain ⟨res, hok⟩ := async_ok_shape message language net hres
  refine ⟨res, hok, rfl, ?_, rfl, ?_⟩
  · obtain ⟨host, port, fmt, pit, rat, ssl, vssl, voi, volu, tmo⟩ := conf
    cases ssl <;> rfl
  · exact show (["format", "pitch", "rate", "voice", "volume", "text"] : List String).Perm
        ("text" :: SUPPORTED_OPTIONS) by decide

/-- Witness for C7 with default configuration and a timeout oracle. -/
theorem claim_C7_witness :
    ∃ res, async_get_tts_audio (providerInit { host := "h" }) "hi" "en-US" none
        (fun _ => .timeout) =
        .ok (buildRequest (providerInit { host := "h" }) ⟨"mp3", 50, 50, "anna", 50⟩ "hi",
             res) ∧
      (buildRequest (providerInit { host := "h" }) ⟨"mp3", 50, 50, "anna", 50⟩ "hi").method
        = "GET" ∧
      (buildRequest (providerInit { host := "h" }) ⟨"mp3", 50, 50, "anna", 50⟩ "hi").url
        = "http://h:8080/say" ∧
      (buildRequest (providerInit { host := "h" }) ⟨"mp3", 50, 50, "anna", 50⟩ "hi").params
        = [("format", .str "mp3"), ("pitch", .int 50), ("rate", .int 50),
           ("voice", .str "anna"), ("volume", .int 50), ("text", .str "hi")] ∧
      ((buildRequest (providerInit { host := "h" }) ⟨"mp3", 50, 50, "anna", 50⟩
          "hi").params.map Prod.fst).Perm ("text" :: SUPPORTED_OPTIONS) :=
  claim_C7_request_shape { host := "h" } "hi" "en-US" none (fun _ => .timeout)
    ⟨"mp3", 50, 50, "anna", 50⟩ (by rfl)

/-- C8: the caller-supplied language argument has no influence whatsoever on
the call — two calls differing only in it produce identical results
(identical validation outcome, identical request, identical returned pair). -/
theorem claim_C8_language_argument_has_no_effect (p : Provider) (message : String)
    (language₁ language₂ : String) (options : Option TTSOptions)
    (net : Request → NetResponse) :
    async_get_tts_audio p message language₁ options net =
      async_get_tts_audio p message language₂ options net := rfl

/-- C9: in the static voice catalog the flattened voice list has no
duplicates, and every voice occurs in exactly one language's voice set, so
the voice-to-language reverse lookup is a well-defined function. -/
theorem claim_C9_voice_identifiers_globally_unique :
    allVoices.Nodup ∧
    (allVoices.all fun v =>
      SUPPORTED_LANGUAGES.countP (fun lv => decide (v ∈ lv.2)) == 1) = true := by
  constructor <;> decide

/-- C10: constructing a provider with a voice absent from every catalog entry
completes normally, but the language attribute stays unassigned, so reading
`default_language` afterwards raises `AttributeError` instead of returning a
defined unset value. -/
theorem claim_C10_unknown_voice_attribute_error (conf : Conf)
    (h : ∀ lv ∈ SUPPORTED_LANGUAGES, conf.voice ∉ lv.2) :
    (providerInit conf).name = "RHVoice" ∧
    (providerInit conf).language = none ∧
    default_language (providerInit conf) = .error (.mk "_language") := by
  have hn : (providerInit conf).language = none := by
    simp [providerInit, lookupLanguage_eq_none h]
  exact ⟨rfl, hn, by simp [default_language, hn]⟩

/-- Witness for C10 at the uncatalogued voice "bob". -/
theorem claim_C10_witness :
    (providerInit { host := "h", voice := "bob" }).name = "RHVoice" ∧
    (providerInit { host := "h", voice := "bob" }).language = none ∧
    default_language (providerInit { host := "h", voice := "bob" }) =
      .error (.mk "_language") :=
  claim_C10_unknown_voice_attribute_error { host := "h", voice := "bob" } (by decide)

end RHVoice
